import Mathlib

/-!
Shallow embedding of two components of the inspektor-gadget repository:

* `pkg/operators/uidgidresolver/uidgidresolver.go` — the uid/gid enrichment
  operator (`CanOperateOn`, `enrich`, `EnrichEvent`, `PreGadgetRun`).
* `pkg/gadget-collection/gadgets/top/tcp/gadget.go` — the tcptop trace
  (`Trace.Start`, `Trace.Stop`, `eventCallback`).

Modelling conventions: Go machine integers are `Int`/`Nat` with the explicit
range checks the source library performs; a Go panic is `Option.none` in the
result of the function that would panic; a Go `error` result is `Option String`
(`none` = nil error); the zero value `""` of the CRD status string
`OperationError` is modelled as `none` (the source only ever assigns to this
field, never reads it).
-/

namespace uidgidresolver

/-- An event value (`any` in the source) as the operator sees it: whether its
dynamic type implements `UidResolverInterface` (`GetUid`/`SetUserName`) and/or
`GidResolverInterface` (`GetGid`/`SetGroupName`), together with the data those
methods reach. -/
structure Event where
  implUid : Bool
  implGid : Bool
  Uid : Nat
  Gid : Nat
  UserName : String
  GroupName : String
deriving DecidableEq

def Event.GetUid (e : Event) : Nat := e.Uid

def Event.GetGid (e : Event) : Nat := e.Gid

def Event.SetUserName (e : Event) (s : String) : Event := { e with UserName := s }

def Event.SetGroupName (e : Event) (s : String) : Event := { e with GroupName := s }

/-- The slice of `gadgets.GadgetDesc` the operator consults: its
`EventPrototype()`. -/
structure GadgetDesc where
  EventPrototype : Event
deriving DecidableEq

/-- Modelled from the spec: the shared `UserGroupCache` (its implementation,
`pkg/operators/uidgidresolver/cache.go`, is not under src/). Reference-counted;
the identity tables are association lists from numeric id to name;
`hostReadError` is the outcome of reading the host identity files on the 0→1
activation. -/
structure UserGroupCache where
  refcount : Nat
  users : List (Nat × String)
  groups : List (Nat × String)
  hostReadError : Option String
deriving DecidableEq

/-- Modelled from the spec: `Start()` increments the refcount; on the 0→1
transition it (re)reads both identity tables from the host and may fail;
subsequent activations are a no-op increment. -/
def UserGroupCache.Start (c : UserGroupCache) : UserGroupCache × Option String :=
  if c.refcount = 0 then
    match c.hostReadError with
    | some e => (c, some e)
    | none => ({ c with refcount := 1 }, none)
  else
    ({ c with refcount := c.refcount + 1 }, none)

/-- Modelled from the spec: `GetUsername` returns the mapped name if present;
otherwise the decimal string form of the id. It never fails. -/
def UserGroupCache.GetUsername (c : UserGroupCache) (uid : Nat) : String :=
  (List.lookup uid c.users).getD (toString uid)

/-- Modelled from the spec: symmetric to `GetUsername`. -/
def UserGroupCache.GetGroupname (c : UserGroupCache) (gid : Nat) : String :=
  (List.lookup gid c.groups).getD (toString gid)

/-- `UidGidResolver.CanOperateOn`: two comma-ok interface assertions on the
gadget's event prototype (these never panic), combined with `||`. -/
def UidGidResolver.CanOperateOn (gadget : GadgetDesc) : Bool :=
  let hasUidResolverInterface := gadget.EventPrototype.implUid
  let hasGidResolverInterface := gadget.EventPrototype.implGid
  hasUidResolverInterface || hasGidResolverInterface

/-- `UidGidResolverInstance` (the `gadgetCtx`/`gadgetInstance` fields are not
consulted by the modelled methods and are omitted). -/
structure UidGidResolverInstance where
  uidGidCache : UserGroupCache
deriving DecidableEq

/-- Go unchecked type assertion `ev.(UidResolverInterface)`: yields the value
when its dynamic type implements the interface, panics (`none`) otherwise. -/
def assertUidResolverInterface (ev : Event) : Option Event :=
  if ev.implUid = true then some ev else none

/-- Go unchecked type assertion `ev.(GidResolverInterface)`. -/
def assertGidResolverInterface (ev : Event) : Option Event :=
  if ev.implGid = true then some ev else none

/-- `UidGidResolverInstance.enrich`. The source performs an unchecked type
assertion for each interface; the `!= nil` guard that follows each assertion is
always true after a successful assertion (asserting on a nil interface value
already panics), so it is elided here. An overall `none` is a Go panic. -/
def UidGidResolverInstance.enrich (m : UidGidResolverInstance) (ev : Event) :
    Option Event :=
  match assertUidResolverInterface ev with
  | none => none
  | some uidResolver =>
    let ev1 := uidResolver.SetUserName (m.uidGidCache.GetUsername uidResolver.GetUid)
    match assertGidResolverInterface ev1 with
    | none => none
    | some gidResolver =>
      some (gidResolver.SetGroupName (m.uidGidCache.GetGroupname gidResolver.GetGid))

/-- `UidGidResolverInstance.EnrichEvent`: calls `enrich` and returns a nil
error. The outer `Option` is a Go panic propagating from `enrich`; the
`Option String` inside the pair is the returned `error`. -/
def UidGidResolverInstance.EnrichEvent (m : UidGidResolverInstance) (ev : Event) :
    Option (Event × Option String) :=
  match m.enrich ev with
  | none => none
  | some ev2 => some (ev2, none)

/-- `UidGidResolverInstance.PreGadgetRun`: returns `m.uidGidCache.Start()`. -/
def UidGidResolverInstance.PreGadgetRun (m : UidGidResolverInstance) :
    UidGidResolverInstance × Option String :=
  let r := m.uidGidCache.Start
  ({ m with uidGidCache := r.1 }, r.2)

/-- An example cache used by the concrete evaluations below. -/
def exCache : UserGroupCache :=
  { refcount := 1, users := [(1000, "alice")], groups := [(1000, "adm")],
    hostReadError := none }

def exInstance : UidGidResolverInstance := { uidGidCache := exCache }

/-- An event implementing neither resolver interface. -/
def evNoCaps : Event :=
  { implUid := false, implGid := false, Uid := 0, Gid := 0,
    UserName := "", GroupName := "" }

/-- An event implementing only `UidResolverInterface`. -/
def evUidOnly : Event :=
  { implUid := true, implGid := false, Uid := 1000, Gid := 0,
    UserName := "", GroupName := "" }

/-- An event implementing both resolver interfaces. -/
def evBoth : Event :=
  { implUid := true, implGid := true, Uid := 1000, Gid := 1000,
    UserName := "", GroupName := "" }

end uidgidresolver

namespace tcptop

/-- Parameter keys and defaults from `pkg/gadgets/top` and
`pkg/gadgets/top/tcp/types` (not under src/; values modelled, only their
distinctness matters to the gadget logic). -/
def MaxRowsParam : String := "max_rows"

def IntervalParam : String := "interval"

def SortByParam : String := "sort"

def PidParam : String := "pid"

def FamilyParam : String := "family"

def MaxRowsDefault : Int := 20

def IntervalDefault : Int := 1

def SortByDefault : List String := ["-sent", "-received"]

/-- `gadgetv1alpha1.TraceStateStarted`. -/
def TraceStateStarted : String := "Started"

/-- `gadgetv1alpha1.TraceStateStopped`. -/
def TraceStateStopped : String := "Stopped"

def digitVal (c : Char) : Option Nat :=
  if c.isDigit then some (c.toNat - 48) else none

/-- Decimal value of a nonempty all-digit character list. -/
def decDigits? (cs : List Char) : Option Nat :=
  if cs.isEmpty then none
  else
    cs.foldl
      (fun acc c =>
        match acc, digitVal c with
        | some a, some d => some (a * 10 + d)
        | _, _ => none)
      (some 0)

/-- Go `strconv.ParseInt(s, 10, bitSize)`: optional sign, decimal digits,
range check against the signed bitSize-bit range. `none` is a non-nil error. -/
def parseIntSigned (s : String) (bitSize : Nat) : Option Int :=
  let cs := s.toList
  let signDigits : Bool × List Char :=
    match cs with
    | '-' :: rest => (true, rest)
    | '+' :: rest => (false, rest)
    | _ => (false, cs)
  match decDigits? signDigits.2 with
  | none => none
  | some n =>
    let v : Int := if signDigits.1 then -(n : Int) else (n : Int)
    if v < -((2 : Int) ^ (bitSize - 1)) ∨ v > (2 : Int) ^ (bitSize - 1) - 1 then none
    else some v

/-- Go `strconv.Atoi` (64-bit int). -/
def atoi (s : String) : Option Int := parseIntSigned s 64

/-- Go `strings.Split(s, ",")`. -/
def splitCommaAux : List Char → List Char → List String
  | [], acc => [String.mk acc.reverse]
  | c :: cs, acc =>
    if c = ',' then String.mk acc.reverse :: splitCommaAux cs []
    else splitCommaAux cs (c :: acc)

def splitComma (s : String) : List String := splitCommaAux s.toList []

/-- Go `strings.Join(l, ",")`. -/
def joinComma : List String → String
  | [] => ""
  | [s] => s
  | s :: rest => s ++ "," ++ joinComma rest

/-- `fmt.Sprintf("%q is not valid for %q", val, p)` for plain strings. -/
def isNotValidMsg (val p : String) : String :=
  "\"" ++ val ++ "\" is not valid for \"" ++ p ++ "\""

/-- `fmt.Sprintf("%q are not valid for %q", vals, p)` for plain strings. -/
def areNotValidMsg (vals p : String) : String :=
  "\"" ++ vals ++ "\" are not valid for \"" ++ p ++ "\""

/-- Modelled from the spec: the known sortable column set of the tcptop event
type (`types.GetColumns()`, not under src/). -/
def sortableColumns : List String :=
  ["pid", "comm", "ip", "saddr", "daddr", "sent", "received"]

/-- A sort token may carry a leading "-" for descending order. -/
def stripDescMark (s : String) : String :=
  match s.toList with
  | '-' :: rest => String.mk rest
  | _ => s

/-- Modelled from the spec: `sort.FilterSortableColumns` (not under src/)
splits the requested tokens into (valid, invalid) against the known sortable
column set, ignoring a leading descending-order mark. -/
def FilterSortableColumns (cols : List String) : List String × List String :=
  (cols.filter (fun c => sortableColumns.contains (stripDescMark c)),
   cols.filter (fun c => !sortableColumns.contains (stripDescMark c)))

/-- Modelled from the spec: `types.ParseFilterByFamily` (not under src/)
accepts "4" and "6" only; anything else is an error. -/
def ParseFilterByFamily (val : String) : Option Int :=
  if val = "4" then some 4 else if val = "6" then some 6 else none

/-- The tracer config assembled by `Trace.Start`. -/
structure Config where
  MaxRows : Int
  IntervalSeconds : Int
  SortBy : List String
  TargetPid : Int
  TargetFamily : Int
deriving DecidableEq

def defaultConfig : Config :=
  { MaxRows := MaxRowsDefault, IntervalSeconds := IntervalDefault,
    SortBy := SortByDefault, TargetPid := 0, TargetFamily := -1 }

/-- The `top.MaxRowsParam` block of `Trace.Start` (gadget.go lines 123-129). -/
def parseMaxRows (ps : List (String × String)) : Except String Int :=
  match List.lookup MaxRowsParam ps with
  | some val =>
    match atoi val with
    | some n => Except.ok n
    | none => Except.error (isNotValidMsg val MaxRowsParam)
  | none => Except.ok MaxRowsDefault

/-- The `top.IntervalParam` block (lines 131-137). -/
def parseInterval (ps : List (String × String)) : Except String Int :=
  match List.lookup IntervalParam ps with
  | some val =>
    match atoi val with
    | some n => Except.ok n
    | none => Except.error (isNotValidMsg val IntervalParam)
  | none => Except.ok IntervalDefault

/-- The `top.SortByParam` block (lines 139-149). -/
def parseSortBy (ps : List (String × String)) : Except String (List String) :=
  match List.lookup SortByParam ps with
  | some val =>
    if (FilterSortableColumns (splitComma val)).2.length > 0 then
      Except.error
        (areNotValidMsg (joinComma (FilterSortableColumns (splitComma val)).2) SortByParam)
    else Except.ok (splitComma val)
  | none => Except.ok SortByDefault

/-- The `types.PidParam` block (lines 151-159): `strconv.ParseInt(val, 10, 32)`. -/
def parsePid (ps : List (String × String)) : Except String Int :=
  match List.lookup PidParam ps with
  | some val =>
    match parseIntSigned val 32 with
    | some pid => Except.ok pid
    | none => Except.error (isNotValidMsg val PidParam)
  | none => Except.ok 0

/-- The `types.FamilyParam` block (lines 161-167). -/
def parseFamilyParam (ps : List (String × String)) : Except String Int :=
  match List.lookup FamilyParam ps with
  | some val =>
    match ParseFilterByFamily val with
    | some f => Except.ok f
    | none => Except.error (isNotValidMsg val FamilyParam)
  | none => Except.ok (-1)

/-- The sequential parameter-validation section of `Trace.Start` (lines
119-168): each block either installs its value or sets the operation error and
returns; the first failing block wins. -/
def parseStartParams (ps : List (String × String)) : Except String Config :=
  match parseMaxRows ps with
  | Except.error e => Except.error e
  | Except.ok maxRows =>
    match parseInterval ps with
    | Except.error e => Except.error e
    | Except.ok intervalSeconds =>
      match parseSortBy ps with
      | Except.error e => Except.error e
      | Except.ok sortBy =>
        match parsePid ps with
        | Except.error e => Except.error e
        | Except.ok targetPid =>
          match parseFamilyParam ps with
          | Except.error e => Except.error e
          | Except.ok targetFamily =>
            Except.ok
              { MaxRows := maxRows, IntervalSeconds := intervalSeconds,
                SortBy := sortBy, TargetPid := targetPid,
                TargetFamily := targetFamily }

/-- The gadget `Trace` struct (gadget.go line 34): its `started` flag and its
tracer (identified by a number; `none` = nil). -/
structure Trace where
  started : Bool
  tracer : Option Nat
deriving DecidableEq

/-- The slice of the `gadgetv1alpha1.Trace` CRD the gadget touches:
`Spec.Parameters` (a nil-able string map), `Status.State` and
`Status.OperationError`. -/
structure ApiTrace where
  Parameters : Option (List (String × String))
  State : String
  OperationError : Option String
deriving DecidableEq

/-- Outcomes of the two external calls `Trace.Start` makes:
`t.helpers.TracerMountNsMap(traceName)` and `tcptoptracer.NewTracer(...)`. -/
structure StartEnv where
  tracerMountNsMap : Except String Unit
  newTracer : Except String Nat

/-- The observable outcome of `Trace.Start`: the mutated receiver, the mutated
CRD, and whether `tcptoptracer.NewTracer` was invoked at all. -/
structure StartResult where
  t : Trace
  trace : ApiTrace
  calledNewTracer : Bool
deriving DecidableEq

/-- `Trace.Start` (gadget.go lines 105-203). -/
def Trace.Start (t : Trace) (trace : ApiTrace) (env : StartEnv) : StartResult :=
  if t.started = true then
    { t := t, trace := { trace with State := TraceStateStarted },
      calledNewTracer := false }
  else
    match
      (match trace.Parameters with
       | some ps => parseStartParams ps
       | none => Except.ok defaultConfig) with
    | Except.error msg =>
      { t := t, trace := { trace with OperationError := some msg },
        calledNewTracer := false }
    | Except.ok _cfg =>
      match env.tracerMountNsMap with
      | Except.error e =>
        { t := t,
          trace :=
            { trace with
              OperationError := some ("failed to find tracer's mount ns map: " ++ e) },
          calledNewTracer := false }
      | Except.ok _ =>
        match env.newTracer with
        | Except.error e =>
          { t := t,
            trace :=
              { trace with OperationError := some ("failed to create tracer: " ++ e) },
            calledNewTracer := true }
        | Except.ok tracerId =>
          { t := { started := true, tracer := some tracerId },
            trace := { trace with State := TraceStateStarted },
            calledNewTracer := true }

/-- The observable outcome of `Trace.Stop`. -/
structure StopResult where
  t : Trace
  trace : ApiTrace
deriving DecidableEq

/-- `Trace.Stop` (gadget.go lines 205-216). -/
def Trace.Stop (t : Trace) (trace : ApiTrace) : StopResult :=
  if t.started = false then
    { t := t, trace := { trace with OperationError := some "Not started" } }
  else
    { t := { started := false, tracer := none },
      trace := { trace with State := TraceStateStopped } }

/-- What one invocation of the event callback does. -/
structure CallbackResult where
  published : List String
  warnings : List String
deriving DecidableEq

/-- `eventCallback` (gadget.go lines 184-191): marshal the event; on failure
log a warning and return without publishing; otherwise publish the serialized
event once. The outcome of the external `json.Marshal` for this event is the
`marshalResult` argument. -/
def eventCallback (marshalResult : Except String String) (gadgetName : String) :
    CallbackResult :=
  match marshalResult with
  | Except.error err =>
    { published := [],
      warnings := ["Gadget " ++ gadgetName ++ ": Failed to marshall event: " ++ err] }
  | Except.ok r =>
    { published := [r], warnings := [] }

/-- The configuration-parameter failure modes named by the spec: non-integer
max-rows, non-integer interval, a sort token outside the sortable column set,
non-integer (or out-of-int32-range) pid, unparsable family. -/
def hasInvalidStartParam (ps : List (String × String)) : Prop :=
  (∃ val, List.lookup MaxRowsParam ps = some val ∧ atoi val = none) ∨
  (∃ val, List.lookup IntervalParam ps = some val ∧ atoi val = none) ∨
  (∃ val, List.lookup SortByParam ps = some val ∧
    (FilterSortableColumns (splitComma val)).2 ≠ []) ∨
  (∃ val, List.lookup PidParam ps = some val ∧ parseIntSigned val 32 = none) ∨
  (∃ val, List.lookup FamilyParam ps = some val ∧ ParseFilterByFamily val = none)

/-- An environment in which both external calls succeed. -/
def envOk : StartEnv := { tracerMountNsMap := Except.ok (), newTracer := Except.ok 1 }

/-- A fresh CRD object: no parameters, zero-valued status. -/
def apiTrace0 : ApiTrace := { Parameters := none, State := "", OperationError := none }

end tcptop

namespace uidgidresolver

theorem enrich_eq_none_of_not_implUid (m : UidGidResolverInstance) (ev : Event)
    (h : ev.implUid = false) : m.enrich ev = none := by
  simp [UidGidResolverInstance.enrich, assertUidResolverInterface, h]

theorem enrich_eq_none_of_not_implGid (m : UidGidResolverInstance) (ev : Event)
    (h : ev.implGid = false) : m.enrich ev = none := by
  unfold UidGidResolverInstance.enrich
  cases hu : assertUidResolverInterface ev with
  | none => rfl
  | some uidResolver =>
    have huv : uidResolver = ev := by
      unfold assertUidResolverInterface at hu
      by_cases hc : ev.implUid = true
      · rw [if_pos hc] at hu; exact (Option.some_injective _ hu).symm
      · rw [if_neg hc] at hu; exact absurd hu (Option.noConfusion)
    subst huv
    simp [assertGidResolverInterface, Event.SetUserName, h]

/-- Claim C1 (code bug): on an event implementing neither resolver interface,
the unchecked type assertion in `enrich` panics (and the panic propagates
through `EnrichEvent`), instead of the safe no-op the spec requires; the
operator itself would not operate on such a gadget (`CanOperateOn` is false),
yet the adapter is required to tolerate the case safely and does not. -/
theorem enrich_panics_without_capabilities :
    UidGidResolver.CanOperateOn { EventPrototype := evNoCaps } = false ∧
    exInstance.enrich evNoCaps = none ∧
    exInstance.EnrichEvent evNoCaps = none :=
  ⟨rfl, rfl, rfl⟩

/-- Claim C9 (code bug): an event implementing only the uid-resolving
capability is one the operator accepts (`CanOperateOn` is true), yet `enrich`
panics on the unchecked gid type assertion instead of enriching the uid and
being a no-op for the absent gid capability. -/
theorem enrich_panics_with_single_capability :
    UidGidResolver.CanOperateOn { EventPrototype := evUidOnly } = true ∧
    exInstance.enrich evUidOnly = none :=
  ⟨rfl, rfl⟩

/-- Claim C7: whenever `EnrichEvent` returns (i.e. does not panic), the error
it returns is nil; and `PreGadgetRun` surfaces exactly the cache's `Start()`
error, once, at pipeline start. -/
theorem enrichEvent_error_always_nil :
    (∀ (m : UidGidResolverInstance) (ev : Event) (p : Event × Option String),
      m.EnrichEvent ev = some p → p.2 = none) ∧
    (∀ m : UidGidResolverInstance, m.PreGadgetRun.2 = m.uidGidCache.Start.2) := by
  constructor
  · intro m ev p h
    unfold UidGidResolverInstance.EnrichEvent at h
    cases he : m.enrich ev with
    | none => rw [he] at h; exact absurd h (Option.noConfusion)
    | some ev2 =>
      rw [he] at h
      have : (ev2, (none : Option String)) = p := Option.some_injective _ h
      rw [← this]
  · intro m; rfl

/-- Witness for C7 at a concrete input: the enrichment of a both-capability
event returns with a nil error. -/
theorem enrichEvent_error_always_nil_witness :
    exInstance.EnrichEvent evBoth =
      some (⟨true, true, 1000, 1000, "alice", "adm"⟩, none) ∧
    ((⟨true, true, 1000, 1000, "alice", "adm"⟩ : Event),
      (none : Option String)).2 = none :=
  ⟨rfl, enrichEvent_error_always_nil.1 exInstance evBoth _ rfl⟩

/-- Claim C8: `CanOperateOn` holds iff the gadget's event prototype implements
the uid-resolving or the gid-resolving capability; either alone suffices. -/
theorem canOperateOn_iff_capability (gadget : GadgetDesc) :
    UidGidResolver.CanOperateOn gadget = true ↔
      (gadget.EventPrototype.implUid = true ∨ gadget.EventPrototype.implGid = true) := by
  simp [UidGidResolver.CanOperateOn, Bool.or_eq_true]

/-- Witness for C8 at a concrete input: a uid-only prototype is accepted. -/
theorem canOperateOn_iff_capability_witness :
    UidGidResolver.CanOperateOn { EventPrototype := evUidOnly } = true :=
  (canOperateOn_iff_capability { EventPrototype := evUidOnly }).2 (Or.inl rfl)

end uidgidresolver

namespace tcptop

theorem parseMaxRows_error_of (ps : List (String × String)) (val : String)
    (hl : List.lookup MaxRowsParam ps = some val) (ha : atoi val = none) :
    parseMaxRows ps = Except.error (isNotValidMsg val MaxRowsParam) := by
  simp [parseMaxRows, hl, ha]

theorem parseInterval_error_of (ps : List (String × String)) (val : String)
    (hl : List.lookup IntervalParam ps = some val) (ha : atoi val = none) :
    parseInterval ps = Except.error (isNotValidMsg val IntervalParam) := by
  simp [parseInterval, hl, ha]

theorem parseSortBy_error_of (ps : List (String × String)) (val : String)
    (hl : List.lookup SortByParam ps = some val)
    (hbad : (FilterSortableColumns (splitComma val)).2 ≠ []) :
    parseSortBy ps =
      Except.error
        (areNotValidMsg (joinComma (FilterSortableColumns (splitComma val)).2)
          SortByParam) := by
  have hlen : (FilterSortableColumns (splitComma val)).2.length > 0 :=
    List.length_pos.mpr hbad
  simp [parseSortBy, hl, hlen]

theorem parsePid_error_of (ps : List (String × String)) (val : String)
    (hl : List.lookup PidParam ps = some val) (ha : parseIntSigned val 32 = none) :
    parsePid ps = Except.error (isNotValidMsg val PidParam) := by
  simp [parsePid, hl, ha]

theorem parseFamilyParam_error_of (ps : List (String × String)) (val : String)
    (hl : List.lookup FamilyParam ps = some val) (ha : ParseFilterByFamily val = none) :
    parseFamilyParam ps = Except.error (isNotValidMsg val FamilyParam) := by
  simp [parseFamilyParam, hl, ha]

theorem parseStartParams_error1 (ps : List (String × String)) (e : String)
    (h1 : parseMaxRows ps = Except.error e) : parseStartParams ps = Except.error e := by
  simp [parseStartParams, h1]

theorem parseStartParams_error2 (ps : List (String × String)) (n : Int) (e : String)
    (h1 : parseMaxRows ps = Except.ok n) (h2 : parseInterval ps = Except.error e) :
    parseStartParams ps = Except.error e := by
  simp [parseStartParams, h1, h2]

theorem parseStartParams_error3 (ps : List (String × String)) (n i : Int) (e : String)
    (h1 : parseMaxRows ps = Except.ok n) (h2 : parseInterval ps = Except.ok i)
    (h3 : parseSortBy ps = Except.error e) : parseStartParams ps = Except.error e := by
  simp [parseStartParams, h1, h2, h3]

theorem parseStartParams_error4 (ps : List (String × String)) (n i : Int)
    (sb : List String) (e : String)
    (h1 : parseMaxRows ps = Except.ok n) (h2 : parseInterval ps = Except.ok i)
    (h3 : parseSortBy ps = Except.ok sb) (h4 : parsePid ps = Except.error e) :
    parseStartParams ps = Except.error e := by
  simp [parseStartParams, h1, h2, h3, h4]

theorem parseStartParams_error5 (ps : List (String × String)) (n i : Int)
    (sb : List String) (pid : Int) (e : String)
    (h1 : parseMaxRows ps = Except.ok n) (h2 : parseInterval ps = Except.ok i)
    (h3 : parseSortBy ps = Except.ok sb) (h4 : parsePid ps = Except.ok pid)
    (h5 : parseFamilyParam ps = Except.error e) :
    parseStartParams ps = Except.error e := by
  simp [parseStartParams, h1, h2, h3, h4, h5]

theorem parseStartParams_error_of_invalid (ps : List (String × String))
    (h : hasInvalidStartParam ps) : ∃ msg, parseStartParams ps = Except.error msg := by
  rcases h with ⟨v, hl, hb⟩ | ⟨v, hl, hb⟩ | ⟨v, hl, hb⟩ | ⟨v, hl, hb⟩ | ⟨v, hl, hb⟩
  · exact ⟨_, parseStartParams_error1 ps _ (parseMaxRows_error_of ps v hl hb)⟩
  · cases h1 : parseMaxRows ps with
    | error e => exact ⟨e, parseStartParams_error1 ps e h1⟩
    | ok n =>
      exact ⟨_, parseStartParams_error2 ps n _ h1 (parseInterval_error_of ps v hl hb)⟩
  · cases h1 : parseMaxRows ps with
    | error e => exact ⟨e, parseStartParams_error1 ps e h1⟩
    | ok n =>
      cases h2 : parseInterval ps with
      | error e => exact ⟨e, parseStartParams_error2 ps n e h1 h2⟩
      | ok i =>
        exact ⟨_, parseStartParams_error3 ps n i _ h1 h2 (parseSortBy_error_of ps v hl hb)⟩
  · cases h1 : parseMaxRows ps with
    | error e => exact ⟨e, parseStartParams_error1 ps e h1⟩
    | ok n =>
      cases h2 : parseInterval ps with
      | error e => exact ⟨e, parseStartParams_error2 ps n e h1 h2⟩
      | ok i =>
        cases h3 : parseSortBy ps with
        | error e => exact ⟨e, parseStartParams_error3 ps n i e h1 h2 h3⟩
        | ok sb =>
          exact ⟨_, parseStartParams_error4 ps n i sb _ h1 h2 h3
            (parsePid_error_of ps v hl hb)⟩
  · cases h1 : parseMaxRows ps with
    | error e => exact ⟨e, parseStartParams_error1 ps e h1⟩
    | ok n =>
      cases h2 : parseInterval ps with
      | error e => exact ⟨e, parseStartParams_error2 ps n e h1 h2⟩
      | ok i =>
        cases h3 : parseSortBy ps with
        | error e => exact ⟨e, parseStartParams_error3 ps n i e h1 h2 h3⟩
        | ok sb =>
          cases h4 : parsePid ps with
          | error e => exact ⟨e, parseStartParams_error4 ps n i sb e h1 h2 h3 h4⟩
          | ok pid =>
            exact ⟨_, parseStartParams_error5 ps n i sb pid _ h1 h2 h3 h4
              (parseFamilyParam_error_of ps v hl hb)⟩

/-- On a parameter-validation error, Start only records the message. -/
theorem start_of_parse_error (t : Trace) (trace : ApiTrace) (env : StartEnv)
    (ps : List (String × String)) (msg : String)
    (h0 : t.started = false) (hps : trace.Parameters = some ps)
    (hpp : parseStartParams ps = Except.error msg) :
    Trace.Start t trace env =
      { t := t, trace := { trace with OperationError := some msg },
        calledNewTracer := false } := by
  simp [Trace.Start, h0, hps, hpp]

end tcptop

namespace tcptop

/-- Claim C2 counterexample: "0" is not a positive integer for max-rows, yet
`Trace.Start` accepts it, records no validation error, creates the tracer and
enters the started state. -/
theorem start_accepts_nonpositive_max_rows :
    Trace.Start { started := false, tracer := none }
        { Parameters := some [(MaxRowsParam, "0")], State := "",
          OperationError := none } envOk =
      { t := { started := true, tracer := some 1 },
        trace := { Parameters := some [(MaxRowsParam, "0")],
                   State := TraceStateStarted, OperationError := none },
        calledNewTracer := true } := rfl

/-- Claim C2 as amended: `Trace.Start` validates only that the max-rows value
parses as an integer; a non-integer value is rejected with a validation error
before the trace enters the started state (positivity is not checked). -/
theorem start_rejects_nonint_max_rows (t : Trace) (trace : ApiTrace) (env : StartEnv)
    (ps : List (String × String)) (val : String)
    (h0 : t.started = false) (hps : trace.Parameters = some ps)
    (hl : List.lookup MaxRowsParam ps = some val) (ha : atoi val = none) :
    Trace.Start t trace env =
      { t := t,
        trace := { trace with OperationError := some (isNotValidMsg val MaxRowsParam) },
        calledNewTracer := false } :=
  start_of_parse_error t trace env ps _ h0 hps
    (parseStartParams_error1 ps _ (parseMaxRows_error_of ps val hl ha))

/-- Witness for the amended C2 at a concrete input. -/
theorem start_rejects_nonint_max_rows_witness :
    Trace.Start { started := false, tracer := none }
        { Parameters := some [(MaxRowsParam, "abc")], State := "",
          OperationError := none } envOk =
      { t := { started := false, tracer := none },
        trace := { Parameters := some [(MaxRowsParam, "abc")], State := "",
                   OperationError := some (isNotValidMsg "abc" MaxRowsParam) },
        calledNewTracer := false } :=
  start_rejects_nonint_max_rows { started := false, tracer := none }
    { Parameters := some [(MaxRowsParam, "abc")], State := "", OperationError := none }
    envOk [(MaxRowsParam, "abc")] "abc" rfl rfl rfl rfl

/-- Claim C3 counterexample: `Trace.Stop` on a never-started trace does not
succeed silently; it reports the operation error "Not started". -/
theorem stop_on_stopped_reports_error :
    (Trace.Stop { started := false, tracer := none } apiTrace0).trace.OperationError =
      some "Not started" := rfl

/-- Claim C3 as amended: `Trace.Stop` on a trace that is already stopped (or
was never started) leaves the gadget state unchanged and does not crash, but it
is not silently idempotent: it records the operation error "Not started". -/
theorem stop_on_stopped_keeps_state_sets_error (t : Trace) (trace : ApiTrace)
    (h : t.started = false) :
    Trace.Stop t trace =
      { t := t, trace := { trace with OperationError := some "Not started" } } := by
  simp [Trace.Stop, h]

/-- Witness for the amended C3 at a concrete input. -/
theorem stop_on_stopped_keeps_state_sets_error_witness :
    Trace.Stop { started := false, tracer := none } apiTrace0 =
      { t := { started := false, tracer := none },
        trace := { apiTrace0 with OperationError := some "Not started" } } :=
  stop_on_stopped_keeps_state_sets_error { started := false, tracer := none }
    apiTrace0 rfl

/-- Claim C4: if the sort-by parameter contains a token outside the sortable
column set (and the parameter blocks checked before it — max-rows and interval
— parse), `Trace.Start` records a validation error naming the invalid columns
and returns: the gadget state and `Status.State` are unchanged and the tracer
constructor is never invoked. -/
theorem start_rejects_invalid_sort_columns (t : Trace) (trace : ApiTrace)
    (env : StartEnv) (ps : List (String × String)) (val : String)
    (h0 : t.started = false) (hps : trace.Parameters = some ps)
    (hmr : ∃ n, parseMaxRows ps = Except.ok n)
    (hiv : ∃ n, parseInterval ps = Except.ok n)
    (hl : List.lookup SortByParam ps = some val)
    (hbad : (FilterSortableColumns (splitComma val)).2 ≠ []) :
    Trace.Start t trace env =
      { t := t,
        trace :=
          { trace with
            OperationError :=
              some (areNotValidMsg
                (joinComma (FilterSortableColumns (splitComma val)).2) SortByParam) },
        calledNewTracer := false } := by
  obtain ⟨n, h1⟩ := hmr
  obtain ⟨i, h2⟩ := hiv
  exact start_of_parse_error t trace env ps _ h0 hps
    (parseStartParams_error3 ps n i _ h1 h2 (parseSortBy_error_of ps val hl hbad))

/-- Witness for C4 at a concrete input. -/
theorem start_rejects_invalid_sort_columns_witness :
    Trace.Start { started := false, tracer := none }
        { Parameters := some [(SortByParam, "bogus")], State := "",
          OperationError := none } envOk =
      { t := { started := false, tracer := none },
        trace := { Parameters := some [(SortByParam, "bogus")], State := "",
                   OperationError :=
                     some (areNotValidMsg
                       (joinComma (FilterSortableColumns (splitComma "bogus")).2)
                       SortByParam) },
        calledNewTracer := false } :=
  start_rejects_invalid_sort_columns { started := false, tracer := none }
    { Parameters := some [(SortByParam, "bogus")], State := "", OperationError := none }
    envOk [(SortByParam, "bogus")] "bogus" rfl rfl ⟨MaxRowsDefault, rfl⟩
    ⟨IntervalDefault, rfl⟩ rfl (by decide)

/-- Claim C5: for every invalid configuration parameter (non-integer max-rows,
interval or pid, unparsable family, unknown sort column), `Trace.Start` on a
not-started trace records a descriptive operation error and returns with the
state unchanged: `started` remains false, the tracer constructor is never
invoked, and `Status.State` is untouched (in particular never set to Started). -/
theorem start_invalid_param_keeps_state (t : Trace) (trace : ApiTrace)
    (env : StartEnv) (ps : List (String × String))
    (h0 : t.started = false) (hps : trace.Parameters = some ps)
    (hbad : hasInvalidStartParam ps) :
    ∃ msg, Trace.Start t trace env =
      { t := t, trace := { trace with OperationError := some msg },
        calledNewTracer := false } := by
  obtain ⟨msg, hpp⟩ := parseStartParams_error_of_invalid ps hbad
  exact ⟨msg, start_of_parse_error t trace env ps msg h0 hps hpp⟩

/-- Witness for C5 at a concrete input: an unparsable family value. -/
theorem start_invalid_param_keeps_state_witness :
    ∃ msg, Trace.Start { started := false, tracer := none }
        { Parameters := some [(FamilyParam, "5")], State := "",
          OperationError := none } envOk =
      { t := { started := false, tracer := none },
        trace := { Parameters := some [(FamilyParam, "5")], State := "",
                   OperationError := some msg },
        calledNewTracer := false } :=
  start_invalid_param_keeps_state { started := false, tracer := none }
    { Parameters := some [(FamilyParam, "5")], State := "", OperationError := none }
    envOk [(FamilyParam, "5")] rfl rfl
    (Or.inr (Or.inr (Or.inr (Or.inr ⟨"5", rfl, rfl⟩))))

/-- Claim C6: on a tick, the event callback publishes the serialized event
exactly once when marshalling succeeds; when marshalling fails it logs one
warning, publishes nothing, and returns normally (it is a total function, so no
error or panic reaches the sampler or later ticks). -/
theorem eventCallback_publishes_once (marshalResult : Except String String)
    (gadgetName : String) :
    (∀ s, marshalResult = Except.ok s →
      (eventCallback marshalResult gadgetName).published = [s] ∧
      (eventCallback marshalResult gadgetName).warnings = []) ∧
    (∀ e, marshalResult = Except.error e →
      (eventCallback marshalResult gadgetName).published = [] ∧
      (eventCallback marshalResult gadgetName).warnings.length = 1) := by
  constructor
  · intro s h; subst h; exact ⟨rfl, rfl⟩
  · intro e h; subst h; exact ⟨rfl, rfl⟩

/-- Witness for C6 at concrete inputs: one successful and one failing marshal. -/
theorem eventCallback_publishes_once_witness :
    (eventCallback (Except.ok "payload") "tcptop-gadget").published = ["payload"] ∧
    (eventCallback (Except.error "boom") "tcptop-gadget").published = [] :=
  ⟨((eventCallback_publishes_once (Except.ok "payload") "tcptop-gadget").1
      "payload" rfl).1,
   ((eventCallback_publishes_once (Except.error "boom") "tcptop-gadget").2
      "boom" rfl).1⟩

/-- Claim C10: `Trace.Start` on an already-started trace only sets
`Status.State` to Started: the receiver (including the existing tracer and the
`started` flag) is unchanged, no parameter block runs, and the tracer
constructor is not invoked — for any environment. -/
theorem start_on_started_only_sets_state (t : Trace) (trace : ApiTrace)
    (env : StartEnv) (h : t.started = true) :
    Trace.Start t trace env =
      { t := t, trace := { trace with State := TraceStateStarted },
        calledNewTracer := false } := by
  simp [Trace.Start, h]

/-- Witness for C10 at a concrete input. -/
theorem start_on_started_only_sets_state_witness :
    Trace.Start { started := true, tracer := some 7 }
        { Parameters := some [(MaxRowsParam, "abc")], State := "",
          OperationError := none } envOk =
      { t := { started := true, tracer := some 7 },
        trace := { Parameters := some [(MaxRowsParam, "abc")],
                   State := TraceStateStarted, OperationError := none },
        calledNewTracer := false } :=
  start_on_started_only_sets_state { started := true, tracer := some 7 }
    { Parameters := some [(MaxRowsParam, "abc")], State := "", OperationError := none }
    envOk rfl

end tcptop
